import Mathlib

/-!
Verification of the packet framing, validation, decoding and state-diff
engine of the irobot serial driver.

The definitions below are a shallow embedding of the JavaScript sources:
* `misc.js` — byte utilities (`bitsToByte`, `byteToBits`, `bufferToInt`, …);
* `sensors.js` — the packet schema registry, `isValidSensorPacket`,
  `parseSensorData` and `prettifySensorData`;
* the `Robot` module — `_parseSerialData` (the framer), `_handleSensorData`
  and the `_detect*` event-diff functions.

Bytes are modelled as `Nat` (buffer cells always hold values 0–255); the
fallible parts of the JavaScript (thrown exceptions) are modelled with
`Except`.  JavaScript out-of-bounds indexing yields `undefined`; where the
code observes `undefined` we model the access with `List.get?` / `Option`.
-/

namespace IRobot

/-! ## Byte utilities (`misc.js`) -/

/-- `misc.bitsToByte(bits)`: packs a boolean array LSB-first into a byte.
JS source: `b = b ^ (!!bits[i] << i)` for `i = 0..7`; a missing element
(`bits[i] === undefined`) coerces to `false`, hence `List.getD _ false`. -/
def bitsToByte (bits : List Bool) : Nat :=
  let bit (i : Nat) : Nat := (if bits.getD i false then 1 else 0) <<< i
  ((((((((0 : Nat) ^^^ bit 0) ^^^ bit 1) ^^^ bit 2) ^^^ bit 3) ^^^
      bit 4) ^^^ bit 5) ^^^ bit 6) ^^^ bit 7

/-- `misc.byteToBits(b)`: the bits of a byte as a boolean array, LSB first
(`!!(b & 0x1)` is element 0). -/
def byteToBits (b : Nat) : List Bool :=
  [ (b &&& 0x1) != 0,
    ((b &&& 0x2) >>> 1) != 0,
    ((b &&& 0x4) >>> 2) != 0,
    ((b &&& 0x8) >>> 3) != 0,
    ((b &&& 0x10) >>> 4) != 0,
    ((b &&& 0x20) >>> 5) != 0,
    ((b &&& 0x40) >>> 6) != 0,
    ((b &&& 0x80) >>> 7) != 0 ]

/-! ## Frame validation (`sensors.js`) -/

/-- `sensors.PACKET_HEADER`: the first byte in a packet always has this value. -/
def PACKET_HEADER : Nat := 19

/-- `sensors.isValidSensorPacket(packet)`.  The JS checks, in order:
`packet[0] !== PACKET_HEADER` → false; `packet[1] + 3 !== packet.length` →
false (when `packet[1]` is `undefined` the sum is `NaN` and the comparison
always fails); finally the low byte of the sum of all bytes must be 0. -/
def isValidSensorPacket (packet : List Nat) : Bool :=
  match packet.get? 0 with
  | none => false
  | some h =>
    if h ≠ PACKET_HEADER then false
    else
      match packet.get? 1 with
      | none => false
      | some len =>
        if len + 3 ≠ packet.length then false
        else packet.sum % 256 == 0

/-! ## The packet framer (`Robot.prototype._parseSerialData`)

The framer appends incoming bytes to the internal buffer, then scans the
buffer from the END downwards (`for (var i = this._buffer.length; i >= 0;
i--)`), so the candidate used is the LAST header index whose candidate
slice validates.  On success it splices off everything up to the frame end
and strips header, length byte and checksum (`packet.slice(2, -1)`). -/

/-- The candidate frame at buffer index `i` with length byte `len`:
`packet = buffer.slice(i, i + len + 3)`. -/
def candidateSlice (buffer : List Nat) (i len : Nat) : List Nat :=
  (buffer.drop i).take (len + 3)

/-- Whether the descending scan stops at index `i`: the byte there equals the
header sentinel and the candidate slice passes `isValidSensorPacket`.  When
`buffer[i+1]` is `undefined` the JS computes `slice(i, NaN) = []`, which
never validates, so that case is `false`. -/
def validCandidate (buffer : List Nat) (i : Nat) : Bool :=
  if buffer.get? i ≠ some PACKET_HEADER then false
  else
    match buffer.get? (i + 1) with
    | none => false
    | some len => isValidSensorPacket (candidateSlice buffer i len)

/-- The scan `for (var i = buffer.length; i >= 0; i--)`: the greatest index
`≤ n` holding a valid candidate, if any. -/
def scanDown (buffer : List Nat) : Nat → Option Nat
  | 0 => if validCandidate buffer 0 then some 0 else none
  | i + 1 => if validCandidate buffer (i + 1) then some (i + 1) else scanDown buffer i

/-- One `feed` pass of `_parseSerialData` at the framing level: append the
data to the buffer, scan for the last valid candidate, and if one is found
drop the buffer through the frame end and return the extracted payload
(`packet.slice(2, -1)`). -/
def framerFeed (buffer data : List Nat) : List Nat × Option (List Nat) :=
  let buf := buffer ++ data
  match scanDown buf buf.length with
  | none => (buf, none)
  | some i =>
    match buf.get? (i + 1) with
    | none => (buf, none)
    | some len =>
      (buf.drop (i + len + 3), some (((candidateSlice buf i len).drop 2).dropLast))

/-- Feeding a list of chunks in order, collecting every extracted payload. -/
def feedAll (buffer : List Nat) : List (List Nat) → List Nat × List (List Nat)
  | [] => (buffer, [])
  | c :: cs =>
    let fc := framerFeed buffer c
    let rest := feedAll fc.1 cs
    (rest.1, fc.2.toList ++ rest.2)

/-! ## The sensor packet schema registry and decoder (`sensors.js`) -/

/-- Errors thrown on the JS decode path: `parseSensorData` throws
`Error('unrecognized packet id: …')` explicitly; `typeError` stands for the
`TypeError`s the runtime raises (calling a `Buffer.readUInt…` method that
does not exist, or reading a property of `undefined` during reshaping). -/
inductive JsError where
  | unrecognizedPacketId (id : Nat)
  | typeError
deriving DecidableEq

/-- `misc.bufferToInt(buffer, signed)`: builds a method name from the buffer
length (`read[U]Int{8·length}[BE]`) and calls it.  Lengths 1, 2 and 4 name
real `Buffer` methods (big-endian beyond one byte); any other length names a
missing method, so the call raises a `TypeError`. -/
def bufferToInt (buffer : List Nat) (signed : Bool) : Except JsError Int :=
  match buffer with
  | [b] =>
    .ok (if signed && decide (128 ≤ b) then (b : Int) - 256 else (b : Int))
  | [b0, b1] =>
    let u := b0 * 256 + b1
    .ok (if signed && decide (32768 ≤ u) then (u : Int) - 65536 else (u : Int))
  | [b0, b1, b2, b3] =>
    let u := ((b0 * 256 + b1) * 256 + b2) * 256 + b3
    .ok (if signed && decide (2147483648 ≤ u) then (u : Int) - 4294967296
         else (u : Int))
  | _ => .error .typeError

/-- `sensors.js`'s local `parseBits(b)`: the bits of a byte as booleans,
MSB first (element 0 is `!!((b & 0x80) >> 7)`) — note this draft orders bits
oppositely to `misc.byteToBits`. -/
def parseBits (b : Nat) : List Bool :=
  [ ((b &&& 0x80) >>> 7) != 0,
    ((b &&& 0x40) >>> 6) != 0,
    ((b &&& 0x20) >>> 5) != 0,
    ((b &&& 0x10) >>> 4) != 0,
    ((b &&& 0x8) >>> 3) != 0,
    ((b &&& 0x4) >>> 2) != 0,
    ((b &&& 0x2) >>> 1) != 0,
    (b &&& 0x1) != 0 ]

/-- `parseBool(bytes) = !!(bytes[0])`; an out-of-range read yields
`undefined`, which is falsy. -/
def parseBool (bytes : List Nat) : Bool :=
  match bytes.head? with
  | none => false
  | some b => b != 0

structure BumpRaw where
  left : Bool
  right : Bool
deriving DecidableEq

structure WheelDropRaw where
  caster : Bool
  left : Bool
  right : Bool
deriving DecidableEq

structure BumpWheelDropRaw where
  bump : BumpRaw
  wheel_drop : WheelDropRaw
deriving DecidableEq

structure WheelPairRaw where
  left : Bool
  right : Bool
deriving DecidableEq

/-- The 3-element `low_side_drivers` array `[ld0, ld1, ld2]`. -/
structure Ld3 where
  ld0 : Bool
  ld1 : Bool
  ld2 : Bool
deriving DecidableEq

structure OvercurrentsRaw where
  wheel : WheelPairRaw
  low_side_drivers : Ld3
deriving DecidableEq

structure InfraredRaw where
  receiving : Bool
  value : Option Nat
deriving DecidableEq

structure ButtonsRaw where
  advance : Bool
  play : Bool
deriving DecidableEq

structure Millimeters where
  millimeters : Int
deriving DecidableEq

structure DegreesCcw where
  degrees_ccw : Int
deriving DecidableEq

structure ChargingStateRaw where
  not_charging : Bool
  reconditioning_charging : Bool
  full_charging : Bool
  trickle_charging : Bool
  waiting : Bool
  charging_fault_condition : Bool
deriving DecidableEq

structure Millivolts where
  millivolts : Int
deriving DecidableEq

structure MilliampHours where
  milliamp_hours : Int
deriving DecidableEq

structure CelsiusRaw where
  celsius : Int
deriving DecidableEq

/-- A `buildParseMagnitude` reading `{min, max, range, raw, magnitude}`;
the JS float division `raw / range` is modelled as an exact rational. -/
structure Magnitude where
  min : Int
  max : Int
  range : Int
  raw : Int
  magnitude : Rat
deriving DecidableEq

structure CargoBayDigitalRaw where
  device_detect_baudrate_change : Bool
  digital_inputs : List Bool
deriving DecidableEq

/-- A `buildParseScaled('volts', …)` reading (floats as exact rationals). -/
structure ScaledVolts where
  min_volts : Rat
  max_volts : Rat
  volts : Rat
deriving DecidableEq

structure ChargeSources where
  home_base : Bool
  internal_charger : Bool
deriving DecidableEq

structure ModeRaw where
  off : Bool
  passive : Bool
  safe : Bool
  full : Bool
deriving DecidableEq

/-- The flat `rawSensorData` map built by the decode walk: one slot per
packet name, `none` until that packet has been seen. -/
structure Raw where
  bump_and_wheel_drop : Option BumpWheelDropRaw := none
  wall : Option Bool := none
  cliff_left : Option Bool := none
  cliff_front_left : Option Bool := none
  cliff_front_right : Option Bool := none
  cliff_right : Option Bool := none
  virtual_wall : Option Bool := none
  low_side_driver_and_wheel_overcurrents : Option OvercurrentsRaw := none
  infrared_byte : Option InfraredRaw := none
  buttons : Option ButtonsRaw := none
  distance : Option Millimeters := none
  angle : Option DegreesCcw := none
  charging_state : Option ChargingStateRaw := none
  voltage : Option Millivolts := none
  current : Option MilliampHours := none
  battery_temperature : Option CelsiusRaw := none
  battery_charge : Option MilliampHours := none
  battery_capacity : Option MilliampHours := none
  wall_signal : Option Magnitude := none
  cliff_left_signal : Option Magnitude := none
  cliff_front_left_signal : Option Magnitude := none
  cliff_front_right_signal : Option Magnitude := none
  cliff_right_signal : Option Magnitude := none
  cargo_bay_digital_inputs : Option CargoBayDigitalRaw := none
  cargo_bay_analog_signal : Option ScaledVolts := none
  charging_sources_available : Option ChargeSources := none
  oi_mode : Option ModeRaw := none
  song_number : Option Int := none
  song_playing : Option Bool := none
  number_stream_packets : Option Int := none
  requested_velocity : Option Int := none
  requested_radius : Option Int := none
  requested_right_velocity : Option Int := none
  requested_left_velocity : Option Int := none
deriving DecidableEq

/-- The schema registry as seen through `getById(id).bytes`: the declared
byte width of every registered packet id (ids 7–14 and 17–42), `none` for
ids absent from the registry. -/
def packetWidth (id : Nat) : Option Nat :=
  match id with
  | 7 => some 1
  | 8 => some 1
  | 9 => some 1
  | 10 => some 1
  | 11 => some 1
  | 12 => some 1
  | 13 => some 1
  | 14 => some 1
  | 17 => some 1
  | 18 => some 1
  | 19 => some 2
  | 20 => some 2
  | 21 => some 1
  | 22 => some 2
  | 23 => some 2
  | 24 => some 1
  | 25 => some 2
  | 26 => some 2
  | 27 => some 2
  | 28 => some 2
  | 29 => some 2
  | 30 => some 2
  | 31 => some 2
  | 32 => some 1
  | 33 => some 2
  | 34 => some 1
  | 35 => some 1
  | 36 => some 1
  | 37 => some 1
  | 38 => some 1
  | 39 => some 2
  | 40 => some 2
  | 41 => some 2
  | 42 => some 2
  | _ => none

/-- `buildParseMagnitude({min, max})` applied to the data bytes. -/
def parseMagnitude (mn mx : Int) (bytes : List Nat) : Except JsError Magnitude := do
  let raw ← bufferToInt bytes false
  pure { min := mn, max := mx, range := mx - mn, raw := raw,
         magnitude := (raw : Rat) / ((mx - mn : Int) : Rat) }

/-- `buildParseScaled('volts', {max_raw: 1023, max_actual: 5.0})` via
`scaleValue`. -/
def parseScaledVolts (bytes : List Nat) : Except JsError ScaledVolts := do
  let raw ← bufferToInt bytes false
  pure { min_volts := 0, max_volts := 5, volts := ((raw : Rat) / 1023) * 5 }

/-- Dispatch of `packetInfo.parse(new Buffer(bytes))` for every registered
id, storing the result under the packet's name (every registered parser
returns a value, so nothing is dropped as `undefined`).  Bit-packed parsers
apply `parseBits` to `bytes[0]`; an out-of-range `bytes[0]` is `undefined`,
which the bitwise operators coerce to 0, hence `List.getD _ 0`.  The
wildcard arm is unreachable because callers look the id up in the registry
first. -/
def applyPacket (raw : Raw) (id : Nat) (bytes : List Nat) : Except JsError Raw :=
  match id with
  | 7 =>
    let bits := parseBits (bytes.getD 0 0)
    .ok { raw with bump_and_wheel_drop := some {
      bump := { left := bits.getD 1 false, right := bits.getD 0 false },
      wheel_drop := { caster := bits.getD 4 false, left := bits.getD 3 false,
                      right := bits.getD 2 false } } }
  | 8 => .ok { raw with wall := some (parseBool bytes) }
  | 9 => .ok { raw with cliff_left := some (parseBool bytes) }
  | 10 => .ok { raw with cliff_front_left := some (parseBool bytes) }
  | 11 => .ok { raw with cliff_front_right := some (parseBool bytes) }
  | 12 => .ok { raw with cliff_right := some (parseBool bytes) }
  | 13 => .ok { raw with virtual_wall := some (parseBool bytes) }
  | 14 =>
    let bits := parseBits (bytes.getD 0 0)
    .ok { raw with low_side_driver_and_wheel_overcurrents := some {
      wheel := { left := bits.getD 4 false, right := bits.getD 3 false },
      low_side_drivers := { ld0 := bits.getD 1 false, ld1 := bits.getD 0 false,
                            ld2 := bits.getD 2 false } } }
  | 17 =>
    .ok { raw with infrared_byte := some (
      match bytes.head? with
      | none => { receiving := true, value := none }
      | some b => { receiving := b != 255, value := some b }) }
  | 18 =>
    let bits := parseBits (bytes.getD 0 0)
    .ok { raw with buttons := some {
      advance := bits.getD 2 false, play := bits.getD 0 false } }
  | 19 => do
    let v ← bufferToInt bytes true
    .ok { raw with distance := some { millimeters := v } }
  | 20 => do
    let v ← bufferToInt bytes true
    .ok { raw with angle := some { degrees_ccw := v } }
  | 21 =>
    let s := bytes.head?
    .ok { raw with charging_state := some {
      not_charging := s == some 0, reconditioning_charging := s == some 1,
      full_charging := s == some 2, trickle_charging := s == some 3,
      waiting := s == some 4, charging_fault_condition := s == some 5 } }
  | 22 => do
    let v ← bufferToInt bytes false
    .ok { raw with voltage := some { millivolts := v } }
  | 23 => do
    let v ← bufferToInt bytes false
    .ok { raw with current := some { milliamp_hours := v } }
  | 24 => do
    let v ← bufferToInt bytes true
    .ok { raw with battery_temperature := some { celsius := v } }
  | 25 => do
    let v ← bufferToInt bytes false
    .ok { raw with battery_charge := some { milliamp_hours := v } }
  | 26 => do
    let v ← bufferToInt bytes false
    .ok { raw with battery_capacity := some { milliamp_hours := v } }
  | 27 => do
    let m ← parseMagnitude 0 4095 bytes
    .ok { raw with wall_signal := some m }
  | 28 => do
    let m ← parseMagnitude 0 4095 bytes
    .ok { raw with cliff_left_signal := some m }
  | 29 => do
    let m ← parseMagnitude 0 4095 bytes
    .ok { raw with cliff_front_left_signal := some m }
  | 30 => do
    let m ← parseMagnitude 0 4095 bytes
    .ok { raw with cliff_front_right_signal := some m }
  | 31 => do
    let m ← parseMagnitude 0 4095 bytes
    .ok { raw with cliff_right_signal := some m }
  | 32 =>
    let bits := parseBits (bytes.getD 0 0)
    .ok { raw with cargo_bay_digital_inputs := some {
      device_detect_baudrate_change := bits.getD 4 false,
      digital_inputs := [bits.getD 0 false, bits.getD 1 false,
                         bits.getD 2 false, bits.getD 3 false] } }
  | 33 => do
    let v ← parseScaledVolts bytes
    .ok { raw with cargo_bay_analog_signal := some v }
  | 34 =>
    let bits := parseBits (bytes.getD 0 0)
    .ok { raw with charging_sources_available := some {
      home_base := bits.getD 1 false, internal_charger := bits.getD 0 false } }
  | 35 =>
    let m := bytes.head?
    .ok { raw with oi_mode := some {
      off := m == some 0, passive := m == some 1,
      safe := m == some 2, full := m == some 3 } }
  | 36 => do
    let v ← bufferToInt bytes false
    .ok { raw with song_number := some v }
  | 37 => .ok { raw with song_playing := some (parseBool bytes) }
  | 38 => do
    let v ← bufferToInt bytes false
    .ok { raw with number_stream_packets := some v }
  | 39 => do
    let v ← bufferToInt bytes true
    .ok { raw with requested_velocity := some v }
  | 40 => do
    let v ← bufferToInt bytes true
    .ok { raw with requested_radius := some v }
  | 41 => do
    let v ← bufferToInt bytes true
    .ok { raw with requested_right_velocity := some v }
  | 42 => do
    let v ← bufferToInt bytes true
    .ok { raw with requested_left_velocity := some v }
  | _ => .ok raw

/-- The body of the decode walk, with an explicit iteration bound: read the
id byte, look it up in the registry (throw `unrecognized packet id` when
absent), slice the declared number of data bytes (`Array.slice` clips at the
payload end), parse them through `new Buffer(bytes)` (which truncates every
value to its low byte), and continue after the consumed bytes.  The JS `for`
loop advances `i` by `1 + width` per packet, so it runs at most
`data.length` iterations; the fuel argument makes that bound explicit and
never runs out when it starts at `data.length` (`parseLoopF_irrel`). -/
def parseLoopF : Nat → List Nat → Raw → Except JsError Raw
  | _, [], raw => .ok raw
  | 0, _ :: _, raw => .ok raw
  | fuel + 1, id :: rest, raw =>
    match packetWidth id with
    | none => .error (.unrecognizedPacketId id)
    | some w =>
      match applyPacket raw id ((rest.take w).map (fun b => b % 256)) with
      | .error e => .error e
      | .ok raw' => parseLoopF fuel (rest.drop w) raw'

/-- The decode walk of `parseSensorData`. -/
def parseLoop (data : List Nat) (raw : Raw) : Except JsError Raw :=
  parseLoopF data.length data raw

/-! ## The prettified sensor snapshot (`prettifySensorData`) -/

structure WheelFull where
  dropped : Bool
  overcurrent : Bool
deriving DecidableEq

structure CasterWheel where
  dropped : Bool
deriving DecidableEq

structure Wheels where
  right : WheelFull
  left : WheelFull
  caster : CasterWheel
deriving DecidableEq

structure LsdEntry where
  overcurrent : Bool
deriving DecidableEq

/-- The mapped 3-element `low_side_drivers` array of the snapshot. -/
structure Lsd3 where
  lsd0 : LsdEntry
  lsd1 : LsdEntry
  lsd2 : LsdEntry
deriving DecidableEq

structure BumperState where
  activated : Bool
deriving DecidableEq

structure Bumpers where
  left : BumperState
  right : BumperState
  both : BumperState
deriving DecidableEq

structure CliffSensor where
  detecting : Option Bool
  signal : Option Magnitude
deriving DecidableEq

structure CliffSensors where
  left : CliffSensor
  front_left : CliffSensor
  front_right : CliffSensor
  right : CliffSensor
deriving DecidableEq

structure WallSensor where
  detecting : Option Bool
  signal : Option Magnitude
deriving DecidableEq

structure VirtualWallSensor where
  detecting : Option Bool
deriving DecidableEq

structure IrState where
  receiving : Bool
  received_value : Option Nat
deriving DecidableEq

structure ButtonState where
  pressed : Bool
deriving DecidableEq

structure Buttons where
  advance : ButtonState
  play : ButtonState
deriving DecidableEq

/-- The battery `charge` sub-object; the JS keys are `type` and `from`
(both Lean keywords).  `_.omit(x, 'not_charging')` removes no key from the
charging-sources object, so both fields copy the same slot. -/
structure BatteryCharge where
  source_type : Option ChargeSources
  from_sources : Option ChargeSources
deriving DecidableEq

structure BatteryTemperature where
  celsius : Int
  fahrenheit : Rat
deriving DecidableEq

structure BatteryCapacity where
  current : Option MilliampHours
  max : Option MilliampHours
deriving DecidableEq

structure Battery where
  charging : Bool
  charge : BatteryCharge
  voltage : Option Millivolts
  current : Option MilliampHours
  temperature : BatteryTemperature
  capacity : BatteryCapacity
deriving DecidableEq

structure CargoBay where
  device_detect_baudrate_change : Bool
  digital_input : List Bool
  analog_signal : Option ScaledVolts
deriving DecidableEq

structure Song where
  playing : Option Bool
  number : Option Int
deriving DecidableEq

structure StateData where
  mode : Option ModeRaw
  distance : Option Millimeters
  angle : Option DegreesCcw
  requested_velocity : Option Int
  requested_radius : Option Int
  requested_right_velocity : Option Int
  requested_left_velocity : Option Int
deriving DecidableEq

/-- The nested sensor snapshot produced by `prettifySensorData`. -/
structure Snapshot where
  wheels : Wheels
  low_side_drivers : Lsd3
  bumpers : Bumpers
  cliff_sensors : CliffSensors
  wall_sensor : WallSensor
  virtual_wall_sensor : VirtualWallSensor
  ir : IrState
  buttons : Buttons
  battery : Battery
  cargo_bay : CargoBay
  song : Song
  state : StateData
deriving DecidableEq

/-- `prettifySensorData(raw)`: reshape the flat map into the nested
snapshot.  A property read through a missing slot (`raw.x.y` with `raw.x`
undefined) raises a `TypeError`; a direct copy of a missing slot stores
`undefined`, modelled as `none`.  `cliff_sensors.front_right.signal` reads
`raw.cliff_fron_right_signal` — a misspelling of a key that is never
written — so it is always `undefined`. -/
def prettifySensorData (raw : Raw) : Except JsError Snapshot := do
  let bwd ← match raw.bump_and_wheel_drop with
    | none => Except.error JsError.typeError
    | some v => Except.ok v
  let oc ← match raw.low_side_driver_and_wheel_overcurrents with
    | none => Except.error JsError.typeError
    | some v => Except.ok v
  let irb ← match raw.infrared_byte with
    | none => Except.error JsError.typeError
    | some v => Except.ok v
  let btn ← match raw.buttons with
    | none => Except.error JsError.typeError
    | some v => Except.ok v
  let cst ← match raw.charging_state with
    | none => Except.error JsError.typeError
    | some v => Except.ok v
  let btemp ← match raw.battery_temperature with
    | none => Except.error JsError.typeError
    | some v => Except.ok v
  let cbd ← match raw.cargo_bay_digital_inputs with
    | none => Except.error JsError.typeError
    | some v => Except.ok v
  .ok
    { wheels :=
        { right := { dropped := bwd.wheel_drop.right, overcurrent := oc.wheel.right },
          left := { dropped := bwd.wheel_drop.left, overcurrent := oc.wheel.left },
          caster := { dropped := bwd.wheel_drop.caster } },
      low_side_drivers :=
        { lsd0 := { overcurrent := oc.low_side_drivers.ld0 },
          lsd1 := { overcurrent := oc.low_side_drivers.ld1 },
          lsd2 := { overcurrent := oc.low_side_drivers.ld2 } },
      bumpers :=
        { left := { activated := bwd.bump.left },
          right := { activated := bwd.bump.right },
          both := { activated := bwd.bump.right && bwd.bump.left } },
      cliff_sensors :=
        { left := { detecting := raw.cliff_left, signal := raw.cliff_left_signal },
          front_left := { detecting := raw.cliff_front_left,
                          signal := raw.cliff_front_left_signal },
          front_right := { detecting := raw.cliff_front_right, signal := none },
          right := { detecting := raw.cliff_right, signal := raw.cliff_right_signal } },
      wall_sensor := { detecting := raw.wall, signal := raw.wall_signal },
      virtual_wall_sensor := { detecting := raw.virtual_wall },
      ir := { receiving := irb.receiving,
              received_value := if irb.receiving then irb.value else none },
      buttons := { advance := { pressed := btn.advance },
                   play := { pressed := btn.play } },
      battery :=
        { charging := !cst.not_charging,
          charge := { source_type := raw.charging_sources_available,
                      from_sources := raw.charging_sources_available },
          voltage := raw.voltage,
          current := raw.current,
          temperature := { celsius := btemp.celsius,
                           fahrenheit := (btemp.celsius : Rat) * 9 / 5 + 32 },
          capacity := { current := raw.battery_charge, max := raw.battery_capacity } },
      cargo_bay :=
        { device_detect_baudrate_change := cbd.device_detect_baudrate_change,
          digital_input := cbd.digital_inputs,
          analog_signal := raw.cargo_bay_analog_signal },
      song := { playing := raw.song_playing, number := raw.song_number },
      state :=
        { mode := raw.oi_mode, distance := raw.distance, angle := raw.angle,
          requested_velocity := raw.requested_velocity,
          requested_radius := raw.requested_radius,
          requested_right_velocity := raw.requested_right_velocity,
          requested_left_velocity := raw.requested_left_velocity } }

/-- `sensors.parseSensorData(data)`: the decode walk followed by the
reshape. -/
def parseSensorData (data : List Nat) : Except JsError Snapshot := do
  let raw ← parseLoop data {}
  prettifySensorData raw

/-- Payloads that are a concatenation of complete registered packets; the
decode walk consumes such a prefix exactly and continues at whatever
follows. -/
inductive Aligned : List Nat → Prop
  | nil : Aligned []
  | cons (id w : Nat) (data rest : List Nat) :
      packetWidth id = some w → data.length = w → Aligned rest →
      Aligned (id :: (data ++ rest))

/-! ## The state-diff event engine (`Robot.prototype._handleSensorData` and
the `_detect*` functions) -/

/-- The events a diff pass can emit via `this.emit(name, data)`, plus the
`sensordata` and `badpacket` events of `_parseSerialData`.  Aggregate events
carry their composite payloads; the `overcurrent` payload
`{wheels: {left, right}, low_side_drivers: [ld0, ld1, ld2]}` is flattened
into five booleans. -/
inductive Event where
  | sensordata
  | badpacket
  | change
  | wheeldropRight
  | wheeldropLeft
  | wheeldropCaster
  | wheeldrop (right left caster : Bool)
  | bumpRight
  | bumpLeft
  | bumpBoth
  | bump (right left both : Bool)
  | cliffLeft (signal : Option Magnitude)
  | cliffFrontLeft (signal : Option Magnitude)
  | cliffFrontRight (signal : Option Magnitude)
  | cliffRight (signal : Option Magnitude)
  | cliff (sensors : CliffSensors)
  | wall (signal : Option Magnitude)
  | virtualwall
  | ir (value : Option Nat)
  | buttonAdvance
  | buttonPlay
  | button (advance play : Bool)
  | modeOff
  | modePassive
  | modeSafe
  | modeFull
  | mode (m : ModeRaw)
  | overcurrentWheelLeft
  | overcurrentWheelRight
  | overcurrentLsd0
  | overcurrentLsd1
  | overcurrentLsd2
  | overcurrent (wheelLeft wheelRight lsd0 lsd1 lsd2 : Bool)
deriving DecidableEq

/-- The result record of `misc.compare`: `changed` is the deep inequality of
the two values at the watched path, `value` the current value.  The
dotted-path lookup is modelled by handing the two leaf values directly. -/
structure CmpResult (α : Type) where
  changed : Bool
  value : α
deriving DecidableEq

def compareLeaf {α : Type} [DecidableEq α] (prevVal curVal : α) : CmpResult α :=
  { changed := decide ¬(curVal = prevVal), value := curVal }

/-- `Robot.prototype._emitValueChange(key, value, old, new, event, data)`:
run the comparison and emit the event when the watched value changed and the
new value deep-equals the trigger value `target`. -/
def emitValueChange {α : Type} [DecidableEq α] (target : α)
    (prevVal curVal : α) (ev : Event) : CmpResult α × List Event :=
  let cmp := compareLeaf prevVal curVal
  (cmp, if cmp.changed && decide (cmp.value = target) then [ev] else [])

/-- JS truthiness of a Bool-or-`undefined` leaf (`undefined` and `false` are
falsy). -/
def optTruthy (v : Option Bool) : Bool := v == some true

/-- `Robot.prototype._detectWheelDrop`. -/
def detectWheelDrop (oldS curS : Snapshot) : List Event × Bool :=
  let (rightCmp, er) := emitValueChange true oldS.wheels.right.dropped
      curS.wheels.right.dropped .wheeldropRight
  let (leftCmp, el) := emitValueChange true oldS.wheels.left.dropped
      curS.wheels.left.dropped .wheeldropLeft
  let (casterCmp, ec) := emitValueChange true oldS.wheels.caster.dropped
      curS.wheels.caster.dropped .wheeldropCaster
  if (rightCmp.changed && rightCmp.value) || (leftCmp.changed && leftCmp.value) ||
      (casterCmp.changed && casterCmp.value) then
    (er ++ el ++ ec ++
      [.wheeldrop rightCmp.value leftCmp.value casterCmp.value], true)
  else
    (er ++ el ++ ec, false)

/-- `Robot.prototype._detectBump`: individual bumper events, a virtual
`bump:both` when both bumpers are active, and the aggregate `bump` event
with `{right, left, both}`. -/
def detectBump (oldS curS : Snapshot) : List Event × Bool :=
  let (rightCmp, er) := emitValueChange true oldS.bumpers.right.activated
      curS.bumpers.right.activated .bumpRight
  let (leftCmp, el) := emitValueChange true oldS.bumpers.left.activated
      curS.bumpers.left.activated .bumpLeft
  if (rightCmp.changed && rightCmp.value) || (leftCmp.changed && leftCmp.value) then
    let eboth := if leftCmp.value && rightCmp.value then [Event.bumpBoth] else []
    (er ++ el ++ eboth ++
      [.bump rightCmp.value leftCmp.value (rightCmp.value && leftCmp.value)], true)
  else
    (er ++ el, false)

/-- `Robot.prototype._detectCliff` (the per-sensor events carry the
`{signal}` pick of the current reading; the aggregate carries a copy of
`cliff_sensors`). -/
def detectCliff (oldS curS : Snapshot) : List Event × Bool :=
  let (leftCmp, e1) := emitValueChange (some true) oldS.cliff_sensors.left.detecting
      curS.cliff_sensors.left.detecting (.cliffLeft curS.cliff_sensors.left.signal)
  let (frontLeftCmp, e2) := emitValueChange (some true)
      oldS.cliff_sensors.front_left.detecting curS.cliff_sensors.front_left.detecting
      (.cliffFrontLeft curS.cliff_sensors.front_left.signal)
  let (frontRightCmp, e3) := emitValueChange (some true)
      oldS.cliff_sensors.front_right.detecting curS.cliff_sensors.front_right.detecting
      (.cliffFrontRight curS.cliff_sensors.front_right.signal)
  let (rightCmp, e4) := emitValueChange (some true) oldS.cliff_sensors.right.detecting
      curS.cliff_sensors.right.detecting (.cliffRight curS.cliff_sensors.right.signal)
  if (leftCmp.changed && optTruthy leftCmp.value) ||
      (frontLeftCmp.changed && optTruthy frontLeftCmp.value) ||
      (frontRightCmp.changed && optTruthy frontRightCmp.value) ||
      (rightCmp.changed && optTruthy rightCmp.value) then
    (e1 ++ e2 ++ e3 ++ e4 ++ [.cliff curS.cliff_sensors], true)
  else
    (e1 ++ e2 ++ e3 ++ e4, false)

/-- `Robot.prototype._detectWall` (returns the `{signal}` object — an object
is always truthy — when the comparison fired). -/
def detectWall (oldS curS : Snapshot) : List Event × Bool :=
  let (cmp, e) := emitValueChange (some true) oldS.wall_sensor.detecting
      curS.wall_sensor.detecting (.wall curS.wall_sensor.signal)
  if cmp.changed && optTruthy cmp.value then (e, true) else (e, false)

/-- `Robot.prototype._detectVirtualWall`. -/
def detectVirtualWall (oldS curS : Snapshot) : List Event × Bool :=
  let (cmp, e) := emitValueChange (some true) oldS.virtual_wall_sensor.detecting
      curS.virtual_wall_sensor.detecting .virtualwall
  if cmp.changed && optTruthy cmp.value then (e, true) else (e, false)

/-- `Robot.prototype._detectIR`. -/
def detectIR (oldS curS : Snapshot) : List Event × Bool :=
  let (cmp, e) := emitValueChange true oldS.ir.receiving curS.ir.receiving
      (.ir curS.ir.received_value)
  if cmp.changed && cmp.value then (e, true) else (e, false)

/-- `Robot.prototype._detectButton`. -/
def detectButton (oldS curS : Snapshot) : List Event × Bool :=
  let (advanceCmp, ea) := emitValueChange true oldS.buttons.advance.pressed
      curS.buttons.advance.pressed .buttonAdvance
  let (playCmp, ep) := emitValueChange true oldS.buttons.play.pressed
      curS.buttons.play.pressed .buttonPlay
  if (advanceCmp.changed && advanceCmp.value) || (playCmp.changed && playCmp.value) then
    (ea ++ ep ++ [.button curS.buttons.advance.pressed curS.buttons.play.pressed], true)
  else
    (ea ++ ep, false)

/-- `Robot.prototype._detectMode`.  The watched paths walk through
`state.mode.off` etc., so when either snapshot's `mode` object is
`undefined` the path lookup in `misc.compare` raises a `TypeError`. -/
def detectMode (oldS curS : Snapshot) : Except JsError (List Event × Bool) :=
  match oldS.state.mode, curS.state.mode with
  | some om, some cm =>
    let (offCmp, e1) := emitValueChange true om.off cm.off .modeOff
    let (passiveCmp, e2) := emitValueChange true om.passive cm.passive .modePassive
    let (safeCmp, e3) := emitValueChange true om.safe cm.safe .modeSafe
    let (fullCmp, e4) := emitValueChange true om.full cm.full .modeFull
    if (offCmp.changed && offCmp.value) || (passiveCmp.changed && passiveCmp.value) ||
        (safeCmp.changed && safeCmp.value) || (fullCmp.changed && fullCmp.value) then
      .ok (e1 ++ e2 ++ e3 ++ e4 ++ [.mode cm], true)
    else
      .ok (e1 ++ e2 ++ e3 ++ e4, false)
  | _, _ => .error .typeError

/-- `Robot.prototype._detectOvercurrent`. -/
def detectOvercurrent (oldS curS : Snapshot) : List Event × Bool :=
  let (leftCmp, e1) := emitValueChange true oldS.wheels.left.overcurrent
      curS.wheels.left.overcurrent .overcurrentWheelLeft
  let (rightCmp, e2) := emitValueChange true oldS.wheels.right.overcurrent
      curS.wheels.right.overcurrent .overcurrentWheelRight
  let (lsd0Cmp, e3) := emitValueChange true oldS.low_side_drivers.lsd0.overcurrent
      curS.low_side_drivers.lsd0.overcurrent .overcurrentLsd0
  let (lsd1Cmp, e4) := emitValueChange true oldS.low_side_drivers.lsd1.overcurrent
      curS.low_side_drivers.lsd1.overcurrent .overcurrentLsd1
  let (lsd2Cmp, e5) := emitValueChange true oldS.low_side_drivers.lsd2.overcurrent
      curS.low_side_drivers.lsd2.overcurrent .overcurrentLsd2
  if (leftCmp.changed && leftCmp.value) || (rightCmp.changed && rightCmp.value) ||
      (lsd0Cmp.changed && lsd0Cmp.value) || (lsd1Cmp.changed && lsd1Cmp.value) ||
      (lsd2Cmp.changed && lsd2Cmp.value) then
    (e1 ++ e2 ++ e3 ++ e4 ++ e5 ++
      [.overcurrent leftCmp.value rightCmp.value
        lsd0Cmp.value lsd1Cmp.value lsd2Cmp.value], true)
  else
    (e1 ++ e2 ++ e3 ++ e4 ++ e5, false)

/-- `Robot.prototype._handleSensorData` without the final store: with no
previous snapshot nothing is emitted; otherwise the nine detectors run in
their registration order and one `change` event is appended when any
detector returned truthy data.  A `TypeError` from the mode detector aborts
the pass; the events emitted before the throw are carried in the `error`
case. -/
def handleSensorData (prev : Option Snapshot) (cur : Snapshot) :
    Except (List Event) (List Event) :=
  match prev with
  | none => .ok []
  | some p =>
    let (e1, t1) := detectBump p cur
    let (e2, t2) := detectButton p cur
    let (e3, t3) := detectCliff p cur
    let (e4, t4) := detectIR p cur
    match detectMode p cur with
    | .error _ => .error (e1 ++ e2 ++ e3 ++ e4)
    | .ok (e5, t5) =>
      let (e6, t6) := detectOvercurrent p cur
      let (e7, t7) := detectVirtualWall p cur
      let (e8, t8) := detectWall p cur
      let (e9, t9) := detectWheelDrop p cur
      let evts := e1 ++ e2 ++ e3 ++ e4 ++ e5 ++ e6 ++ e7 ++ e8 ++ e9
      if t1 || t2 || t3 || t4 || t5 || t6 || t7 || t8 || t9 then
        .ok (evts ++ [.change])
      else
        .ok evts

/-- The engine state: `this._sensorData`, the previous snapshot cell. -/
structure EngineState where
  sensorData : Option Snapshot
deriving DecidableEq

/-- The `'sensordata'` listener step: run the diff pass and store the new
snapshot as previous; if the handler throws, the previous snapshot is left
untouched and the events already emitted are returned with `false`. -/
def handleSensorEvent (st : EngineState) (snap : Snapshot) :
    (EngineState × List Event) × Bool :=
  match handleSensorData st.sensorData snap with
  | .ok evts => ((⟨some snap⟩, evts), true)
  | .error pevts => ((st, pevts), false)

/-- The body of `_parseSerialData` once a frame payload has been extracted:
parse it; on success deliver the snapshot to the sensor-data handler (inside
the same `try`) and then re-emit `sensordata` externally; any exception — a
decode error or a handler `TypeError` — is caught and reported as a single
`badpacket` event, leaving the stored previous snapshot unchanged. -/
def handleParsedPayload (st : EngineState) (payload : List Nat) :
    EngineState × List Event :=
  match parseSensorData payload with
  | .error _ => (st, [Event.badpacket])
  | .ok snap =>
    let res := handleSensorEvent st snap
    if res.2 then (res.1.1, res.1.2 ++ [Event.sensordata])
    else (res.1.1, res.1.2 ++ [Event.badpacket])

/-- A concrete snapshot (all sensors inactive, mode `safe`) used as example
input. -/
def exampleSnapshot : Snapshot where
  wheels :=
    { right := { dropped := false, overcurrent := false },
      left := { dropped := false, overcurrent := false },
      caster := { dropped := false } }
  low_side_drivers :=
    { lsd0 := { overcurrent := false }, lsd1 := { overcurrent := false },
      lsd2 := { overcurrent := false } }
  bumpers :=
    { left := { activated := false }, right := { activated := false },
      both := { activated := false } }
  cliff_sensors :=
    { left := { detecting := some false, signal := none },
      front_left := { detecting := some false, signal := none },
      front_right := { detecting := some false, signal := none },
      right := { detecting := some false, signal := none } }
  wall_sensor := { detecting := some false, signal := none }
  virtual_wall_sensor := { detecting := some false }
  ir := { receiving := false, received_value := none }
  buttons := { advance := { pressed := false }, play := { pressed := false } }
  battery :=
    { charging := false,
      charge := { source_type := none, from_sources := none },
      voltage := none, current := none,
      temperature := { celsius := 20, fahrenheit := 68 },
      capacity := { current := none, max := none } }
  cargo_bay :=
    { device_detect_baudrate_change := false,
      digital_input := [false, false, false, false], analog_signal := none }
  song := { playing := some false, number := some 0 }
  state :=
    { mode := some { off := false, passive := false, safe := true, full := false },
      distance := none, angle := none, requested_velocity := none,
      requested_radius := none, requested_right_velocity := none,
      requested_left_velocity := none }

/-- `exampleSnapshot` with both bumpers active. -/
def exampleSnapshotBumped : Snapshot :=
  { exampleSnapshot with bumpers :=
      { left := { activated := true }, right := { activated := true },
        both := { activated := true } } }

end IRobot

namespace IRobot

/-! ## Theorems for claims C1 and C9 -/

/-- **C1.** Frame validation accepts a byte sequence `f` iff `f[0]` is the
header sentinel 19, `f[1] + 3` equals the length of `f`, and the sum of all
bytes of `f` is congruent to 0 modulo 256; a frame failing any of the three
conditions is rejected (validation returns `false`). -/
theorem frame_validation_iff (f : List Nat) :
    isValidSensorPacket f = true ↔
      (f.get? 0 = some 19 ∧
       (∃ len, f.get? 1 = some len ∧ len + 3 = f.length) ∧
       f.sum % 256 = 0) := by
  match f with
  | [] => simp [isValidSensorPacket]
  | [a] => simp [isValidSensorPacket]
  | a :: b :: t =>
    by_cases ha : a = 19 <;>
    by_cases hb : b + 1 = t.length <;>
    simp [isValidSensorPacket, PACKET_HEADER, ha, hb]

set_option maxRecDepth 4096

/-- **C9.** For every byte `b < 256`, `bitsToByte (byteToBits b) = b`, where
`byteToBits` is LSB-first (element 0 is the truth value of `b &&& 1`). -/
theorem bits_roundtrip (b : Nat) (hb : b < 256) :
    bitsToByte (byteToBits b) = b ∧
      (byteToBits b).get? 0 = some ((b &&& 1) != 0) := by
  have h : ∀ b : Nat, b < 256 →
      bitsToByte (byteToBits b) = b ∧
        (byteToBits b).get? 0 = some ((b &&& 1) != 0) := by decide
  exact h b hb

/-- Witness for `bits_roundtrip` at `b = 173`. -/
theorem bits_roundtrip_witness :
    bitsToByte (byteToBits 173) = 173 ∧
      (byteToBits 173).get? 0 = some ((173 &&& 1) != 0) :=
  bits_roundtrip 173 (by decide)

end IRobot

namespace IRobot

/-! ### Helper lemmas about validation and the descending scan -/

/-- Restatement of frame validity as a conjunction of the three checks. -/
lemma isValid_iff (f : List Nat) :
    isValidSensorPacket f = true ↔
      (f.get? 0 = some 19 ∧
       (∃ len, f.get? 1 = some len ∧ len + 3 = f.length) ∧
       f.sum % 256 = 0) := by
  match f with
  | [] => simp [isValidSensorPacket]
  | [a] => simp [isValidSensorPacket]
  | a :: b :: t =>
    by_cases ha : a = 19 <;>
    by_cases hb : b + 1 = t.length <;>
    simp [isValidSensorPacket, PACKET_HEADER, ha, hb]

lemma validCandidate_false_of_ge (B : List Nat) (i : Nat) (h : B.length ≤ i) :
    validCandidate B i = false := by
  unfold validCandidate
  rw [List.get?_eq_none.mpr h]
  simp

lemma validCandidate_lt (B : List Nat) (j : Nat) (h : validCandidate B j = true) :
    j < B.length := by
  by_contra hge
  rw [validCandidate_false_of_ge B j (by omega)] at h
  cases h

lemma scanDown_eq_some (B : List Nat) (i : Nat) (hvc : validCandidate B i = true) :
    ∀ n, i ≤ n → (∀ j, j ≤ n → i < j → validCandidate B j = false) →
      scanDown B n = some i := by
  intro n
  induction n with
  | zero =>
    intro hle _
    have : i = 0 := by omega
    subst this
    simp [scanDown, hvc]
  | succ m ih =>
    intro hle hno
    by_cases hi : i = m + 1
    · subst hi; simp [scanDown, hvc]
    · have him : i ≤ m := by omega
      have hfalse : validCandidate B (m + 1) = false := hno (m + 1) le_rfl (by omega)
      simp only [scanDown, hfalse, Bool.false_eq_true, if_false]
      exact ih him (fun j hj hij => hno j (by omega) hij)

lemma scanDown_eq_none (B : List Nat) :
    ∀ n, (∀ j, j ≤ n → validCandidate B j = false) → scanDown B n = none := by
  intro n
  induction n with
  | zero => intro h; simp [scanDown, h 0 le_rfl]
  | succ m ih =>
    intro h
    simp only [scanDown, h (m + 1) le_rfl, Bool.false_eq_true, if_false]
    exact ih fun j hj => h j (by omega)

/-- What one feed pass does when the last valid candidate sits at index `i`
with length byte `len`. -/
lemma framerFeed_extract (buffer data : List Nat) (i len : Nat)
    (hlen : (buffer ++ data).get? (i + 1) = some len)
    (hvc : validCandidate (buffer ++ data) i = true)
    (hno : ∀ j, j ≤ (buffer ++ data).length → i < j →
        validCandidate (buffer ++ data) j = false) :
    framerFeed buffer data =
      ((buffer ++ data).drop (i + len + 3),
       some (((candidateSlice (buffer ++ data) i len).drop 2).dropLast)) := by
  have hi : i ≤ (buffer ++ data).length := le_of_lt (validCandidate_lt _ _ hvc)
  have hscan := scanDown_eq_some (buffer ++ data) i hvc (buffer ++ data).length hi hno
  rw [List.length_append] at hscan
  have hlen' : (buffer ++ data)[i + 1]? = some len := by
    rw [← List.get?_eq_getElem?]; exact hlen
  simp [framerFeed, hscan, hlen']

lemma framerFeed_no_extract (buffer data : List Nat)
    (h : ∀ j, j ≤ (buffer ++ data).length → validCandidate (buffer ++ data) j = false) :
    framerFeed buffer data = (buffer ++ data, none) := by
  have hscan := scanDown_eq_none (buffer ++ data) (buffer ++ data).length h
  rw [List.length_append] at hscan
  simp [framerFeed, hscan]


/-! ### Claims C2 and C3: resynchronization and checksum round-trip -/

/-- **C2 counterexample.** `[19, 3, 234, 19, 0, 237]` is one complete valid
frame preceded by empty noise, yet a single feed does not extract the real
frame's payload `[234, 19, 0]`: the descending scan stops first at the
checksum-valid suffix candidate `[19, 0, 237]` (at index 3) and returns its
empty payload instead. -/
theorem resync_counterexample :
    isValidSensorPacket [19, 3, 234, 19, 0, 237] = true ∧
    framerFeed [] [19, 3, 234, 19, 0, 237] = ([], some []) ∧
    (([19, 3, 234, 19, 0, 237] : List Nat).drop 2).dropLast = [234, 19, 0] := by
  decide

/-- **C2 (amended).** For every buffer of noise bytes (which may contain
false-positive header candidates) followed by one complete valid frame,
provided no index after the real frame's start begins a checksum-valid
candidate, a single feed call consumes the whole buffer and extracts exactly
the real frame's payload. -/
theorem resync_extracts_real_frame (noise frame : List Nat)
    (hv : isValidSensorPacket frame = true)
    (hno : ∀ j, j ≤ (noise ++ frame).length → noise.length < j →
        validCandidate (noise ++ frame) j = false) :
    framerFeed [] (noise ++ frame) = ([], some ((frame.drop 2).dropLast)) := by
  obtain ⟨h0, ⟨len, h1, hlen3⟩, hsum⟩ := (isValid_iff frame).mp hv
  have hg0 : (noise ++ frame).get? noise.length = some 19 := by
    rw [List.get?_append_right le_rfl, Nat.sub_self]; exact h0
  have hg1 : (noise ++ frame).get? (noise.length + 1) = some len := by
    rw [List.get?_append_right (by omega)]
    simpa using h1
  have hslice : candidateSlice (noise ++ frame) noise.length len = frame := by
    unfold candidateSlice
    rw [List.drop_left, hlen3, List.take_length]
  have hg0' : (noise ++ frame)[noise.length]? = some 19 := by
    rw [← List.get?_eq_getElem?]; exact hg0
  have hvc : validCandidate (noise ++ frame) noise.length = true := by
    unfold validCandidate
    rw [hg1]
    simp [hg0', PACKET_HEADER, hslice, hv]
  have hfe := framerFeed_extract [] (noise ++ frame) noise.length len
      (by simpa using hg1) (by simpa using hvc) (by simpa using hno)
  simp only [List.nil_append] at hfe
  have hlen_total : noise.length + len + 3 = (noise ++ frame).length := by
    rw [List.length_append]; omega
  rw [hfe, hslice, hlen_total, List.drop_length]

/-- Witness for `resync_extracts_real_frame`: noise `[7, 19, 2]` holds a
false-positive header at index 1, and the real frame `[19, 1, 42, 194]`
follows; the feed extracts the real payload `[42]`. -/
theorem resync_witness :
    framerFeed [] ([7, 19, 2] ++ [19, 1, 42, 194]) =
      ([], some ((([19, 1, 42, 194] : List Nat).drop 2).dropLast)) :=
  resync_extracts_real_frame [7, 19, 2] [19, 1, 42, 194] (by decide) (by decide)

/-- **C3 counterexample.** For the payload `P = [42]`, the frame prescribed
by the claim, `[19, len(P) + 1] ++ P ++ [c] = [19, 2, 42, 193]` with `c`
chosen so the byte-sum is 0 mod 256, is never accepted: the validator
requires `frame[1] + 3 = frame.length` (so the length byte must be
`len(P)`, not `len(P) + 1`), and the feed extracts nothing. -/
theorem checksum_roundtrip_counterexample :
    (19 + 2 + 42 + 193) % 256 = 0 ∧
    framerFeed [] [19, 2, 42, 193] = ([19, 2, 42, 193], none) := by
  decide

/-- **C3 (amended).** For every payload `P` (of byte length at most 255) and
the frame `F = [19, len(P)] ++ P ++ [c]` with `c` chosen so the byte-sum of
`F` is 0 mod 256, provided no strictly later index of `F` begins a
checksum-valid candidate, feeding `F` to a framer with an empty buffer is
accepted exactly once during that feed and the extracted payload is `P`. -/
theorem checksum_roundtrip (P : List Nat) (c : Nat)
    (hbyte : P.length ≤ 255)
    (hsum : (19 + P.length + (P.sum + c)) % 256 = 0)
    (hno : ∀ j, j ≤ (19 :: P.length :: (P ++ [c])).length → 0 < j →
        validCandidate (19 :: P.length :: (P ++ [c])) j = false) :
    framerFeed [] (19 :: P.length :: (P ++ [c])) = ([], some P) := by
  set F := 19 :: P.length :: (P ++ [c]) with hF
  have hlenF : F.length = P.length + 3 := by
    simp [hF]
  have hv : isValidSensorPacket F = true := by
    rw [isValid_iff]
    refine ⟨rfl, ⟨P.length, rfl, by omega⟩, ?_⟩
    have : F.sum = 19 + P.length + (P.sum + c) := by
      simp [hF, List.sum_append]
      omega
    rw [this, hsum]
  have hg1 : F.get? 1 = some P.length := rfl
  have hslice : candidateSlice F 0 P.length = F := by
    unfold candidateSlice
    rw [List.drop_zero, ← hlenF, List.take_length]
  have hvc : validCandidate F 0 = true := by
    unfold validCandidate
    rw [hg1]
    simp [show F[0]? = some 19 from rfl, PACKET_HEADER, hslice, hv]
  have hfe := framerFeed_extract [] F 0 P.length
      (by simpa using hg1) (by simpa using hvc) (by simpa using hno)
  simp only [List.nil_append] at hfe
  rw [hfe, hslice]
  have hd : 0 + P.length + 3 = F.length := by omega
  rw [hd, List.drop_length]
  simp [hF, List.dropLast_concat]

/-- Witness for `checksum_roundtrip`: payload `[42]` with checksum byte 194
(`19 + 1 + 42 + 194 = 256`); the frame `[19, 1, 42, 194]` round-trips. -/
theorem checksum_roundtrip_witness :
    framerFeed [] (19 :: ([42] : List Nat).length :: ([42] ++ [194])) =
      ([], some [42]) :=
  checksum_roundtrip [42] 194 (by decide) (by decide) (by decide)


/-! ### Claim C4: partial delivery -/

lemma get?_take_eq_some {α : Type _} {l : List α} {n i : Nat} {a : α}
    (h : (l.take n).get? i = some a) : l.get? i = some a ∧ i < n := by
  have hi : i < (l.take n).length := by
    rcases List.get?_eq_some.mp h with ⟨hlt, -⟩; exact hlt
  rw [List.length_take, lt_min_iff] at hi
  exact ⟨by rw [← List.get?_take hi.1]; exact h, hi.1⟩

/-- A valid candidate inside the prefix `F.take m` is a valid candidate of
`F` itself, and its candidate frame ends inside the prefix. -/
lemma validCandidate_take (F : List Nat) (m j : Nat)
    (h : validCandidate (F.take m) j = true) :
    validCandidate F j = true ∧
      ∃ len, F.get? (j + 1) = some len ∧ j + len + 3 ≤ m := by
  unfold validCandidate at h
  by_cases hj : (F.take m).get? j = some PACKET_HEADER
  case neg => rw [if_pos hj] at h; exact Bool.noConfusion h
  rw [if_neg (not_not_intro hj)] at h
  cases hg1 : (F.take m).get? (j + 1) with
  | none => rw [hg1] at h; cases h
  | some len =>
    rw [hg1] at h
    obtain ⟨hjF, hjm⟩ := get?_take_eq_some hj
    obtain ⟨hlF, -⟩ := get?_take_eq_some hg1
    obtain ⟨-, ⟨len', hs1, hs3⟩, -⟩ := (isValid_iff _).mp h
    -- the slice's entry at index 1 is the length byte of `F` at `j + 1`
    have hs1' : ((F.take m).drop j).get? 1 = some len' :=
      (get?_take_eq_some hs1).1
    rw [List.get?_drop, hg1] at hs1'
    have hlen' : len' = len := by injection hs1'.symm
    subst hlen'
    -- the slice length bounds the candidate end inside the prefix
    have hslen : (candidateSlice (F.take m) j len').length ≤ m - j := by
      unfold candidateSlice
      rw [List.length_take, List.length_drop, List.length_take]
      calc (len' + 3) ⊓ (m ⊓ F.length - j) ≤ m ⊓ F.length - j := inf_le_right
        _ ≤ m - j := Nat.sub_le_sub_right inf_le_left j
    have hend : len' + 3 ≤ m - j := by omega
    have hslice_eq : candidateSlice (F.take m) j len' = candidateSlice F j len' := by
      unfold candidateSlice
      rw [List.drop_take, List.take_take, min_eq_left hend]
    refine ⟨?_, len', hlF, by omega⟩
    unfold validCandidate
    rw [if_neg (not_not_intro hjF), hlF]
    show isValidSensorPacket (candidateSlice F j len') = true
    rw [← hslice_eq]
    exact h

/-- A proper prefix of a frame whose only valid candidate is at index 0
contains no valid candidate at all. -/
lemma no_candidate_in_proper_prefix (F : List Nat)
    (hv : isValidSensorPacket F = true)
    (hno : ∀ j, j ≤ F.length → 0 < j → validCandidate F j = false)
    (m : Nat) (hm : m < F.length) (j : Nat) :
    validCandidate (F.take m) j = false := by
  by_contra hne
  rw [Bool.not_eq_false] at hne
  obtain ⟨hvF, len, hlen, hend⟩ := validCandidate_take F m j hne
  rcases Nat.eq_zero_or_pos j with hj0 | hjpos
  · subst hj0
    obtain ⟨-, ⟨len0, h1, hl3⟩, -⟩ := (isValid_iff F).mp hv
    rw [h1] at hlen
    have hinj : len0 = len := by injection hlen
    omega
  · have hjlt := validCandidate_lt F j hvF
    rw [hno j (by omega) hjpos] at hvF
    cases hvF

/-- Feeding data that completes exactly one whole valid frame (whose only
valid candidate is at index 0) extracts its payload and empties the buffer. -/
lemma framerFeed_whole (buffer data F : List Nat)
    (hbd : buffer ++ data = F)
    (hv : isValidSensorPacket F = true)
    (hno : ∀ j, j ≤ F.length → 0 < j → validCandidate F j = false) :
    framerFeed buffer data = ([], some ((F.drop 2).dropLast)) := by
  obtain ⟨h0, ⟨len, h1, hl3⟩, -⟩ := (isValid_iff F).mp hv
  have hslice : candidateSlice F 0 len = F := by
    unfold candidateSlice
    rw [List.drop_zero, hl3, List.take_length]
  have hg0 : F[0]? = some 19 := by rw [← List.get?_eq_getElem?]; exact h0
  have hvc : validCandidate F 0 = true := by
    unfold validCandidate
    simp only [Nat.zero_add]
    rw [h1]
    simp [hg0, PACKET_HEADER, hslice, hv]
  have hfe := framerFeed_extract buffer data 0 len
      (by rw [hbd]; simpa using h1) (by rw [hbd]; exact hvc)
      (by rw [hbd]; exact hno)
  rw [hbd] at hfe
  rw [hfe, hslice]
  have hd : 0 + len + 3 = F.length := by omega
  rw [hd, List.drop_length]

/-- Chunked feeding of a frame whose only valid candidate is at index 0:
starting from any buffered proper prefix, the remaining chunks produce
exactly one extraction, the frame payload. -/
lemma feedAll_prefix (F : List Nat)
    (hv : isValidSensorPacket F = true)
    (hno : ∀ j, j ≤ F.length → 0 < j → validCandidate F j = false) :
    ∀ (chunks : List (List Nat)) (m : Nat), m < F.length →
      chunks.flatten = F.drop m → (∀ c ∈ chunks, c ≠ []) →
      feedAll (F.take m) chunks = ([], [(F.drop 2).dropLast]) := by
  intro chunks
  induction chunks with
  | nil =>
    intro m hm hjoin _
    exfalso
    have hd : F.drop m = [] := by simpa using hjoin.symm
    have := List.drop_eq_nil_iff.mp hd
    omega
  | cons c cs ih =>
    intro m hm hjoin hne
    have hcne : c ≠ [] := hne c (List.mem_cons_self c cs)
    have hclen : 0 < c.length := List.length_pos.mpr hcne
    rw [List.flatten_cons] at hjoin
    have hmle : m ≤ F.length := le_of_lt hm
    have hsplit : (F.take m ++ c) ++ cs.flatten = F := by
      rw [List.append_assoc, hjoin, List.take_append_drop]
    have hlen_tc : (F.take m ++ c).length = m + c.length := by
      rw [List.length_append, List.length_take, min_eq_left hmle]
    have hm'le : m + c.length ≤ F.length := by
      have hlength := congrArg List.length hsplit
      rw [List.length_append, hlen_tc] at hlength
      omega
    have htake : F.take (m + c.length) = F.take m ++ c := by
      conv_lhs => rw [← hsplit]
      exact List.take_left' hlen_tc
    have hdrop : F.drop (m + c.length) = cs.flatten := by
      conv_lhs => rw [← hsplit]
      exact List.drop_left' hlen_tc
    rcases lt_or_eq_of_le hm'le with hlt | heq
    · -- the buffer is still a proper prefix: this feed extracts nothing
      have hnone : framerFeed (F.take m) c = (F.take (m + c.length), none) := by
        rw [htake]
        exact framerFeed_no_extract (F.take m) c (fun j _ => by
          rw [← htake]
          exact no_candidate_in_proper_prefix F hv hno (m + c.length) hlt j)
      have hrec := ih (m + c.length) hlt hdrop.symm
        (fun c' hc' => hne c' (List.mem_cons_of_mem _ hc'))
      simp only [feedAll, hnone, hrec, Option.toList_none, List.nil_append]
    · -- this chunk completes the frame
      have hfull : F.take m ++ c = F := by
        rw [← htake, heq, List.take_length]
      have hdone := framerFeed_whole (F.take m) c F hfull hv hno
      have hcs : cs = [] := by
        have hfl : cs.flatten = [] := by
          rw [← hdrop, heq, List.drop_length]
        cases cs with
        | nil => rfl
        | cons c' cs' =>
          exfalso
          exact hne c' (by simp) (List.flatten_eq_nil_iff.mp hfl c' (by simp))
      subst hcs
      simp only [feedAll, hdone, Option.toList_some, List.append_nil]

/-- **C4 counterexample.** The frame
`F = [19, 9, 19, 3, 19, 4, 210, 1, 22, 0, 0, 206]` is valid, but splitting
it into the two non-empty chunks `[19, 9, 19, 3, 19, 4, 210, 1]` and
`[22, 0, 0, 206]` makes the framer extract the payload of an embedded
candidate at index 2 (`[19, 4, 210]`), while feeding `F` whole extracts
the payload of a different embedded candidate at index 4
(`[210, 1, 22, 0]`): the extracted payloads differ. -/
theorem split_feed_counterexample :
    isValidSensorPacket [19, 9, 19, 3, 19, 4, 210, 1, 22, 0, 0, 206] = true ∧
    ([19, 9, 19, 3, 19, 4, 210, 1] : List Nat) ++ [22, 0, 0, 206] =
      [19, 9, 19, 3, 19, 4, 210, 1, 22, 0, 0, 206] ∧
    (feedAll [] [[19, 9, 19, 3, 19, 4, 210, 1], [22, 0, 0, 206]]).2 =
      [[19, 4, 210]] ∧
    (feedAll [] [[19, 9, 19, 3, 19, 4, 210, 1, 22, 0, 0, 206]]).2 =
      [[210, 1, 22, 0]] := by
  decide

/-- **C4 (amended).** For every valid frame `F` in which no index after 0
begins a checksum-valid candidate, and every partition of `F` into
consecutive non-empty chunks, feeding the chunks in order to a fresh framer
produces exactly the same extracted payloads as feeding `F` in a single
call. -/
theorem split_feed_delivery (F : List Nat) (chunks : List (List Nat))
    (hv : isValidSensorPacket F = true)
    (hno : ∀ j, j ≤ F.length → 0 < j → validCandidate F j = false)
    (hjoin : chunks.flatten = F)
    (hne : ∀ c ∈ chunks, c ≠ []) :
    (feedAll [] chunks).2 = (feedAll [] [F]).2 := by
  obtain ⟨h0, ⟨len, h1, hl3⟩, -⟩ := (isValid_iff F).mp hv
  have hFlen : 0 < F.length := by omega
  have hFne : F ≠ [] := by
    intro hcon
    subst hcon
    simp at hFlen
  have ha := feedAll_prefix F hv hno chunks 0 hFlen (by simpa using hjoin) hne
  have hb := feedAll_prefix F hv hno [F] 0 hFlen (by simp) (by simpa using hFne)
  simp only [List.take_zero] at ha hb
  rw [ha, hb]

/-- Witness for `split_feed_delivery`: the frame `[19, 1, 42, 194]` fed one
byte at a time extracts the same payloads as fed whole. -/
theorem split_feed_delivery_witness :
    (feedAll [] [[19], [1], [42], [194]]).2 = (feedAll [] [[19, 1, 42, 194]]).2 :=
  split_feed_delivery [19, 1, 42, 194] [[19], [1], [42], [194]]
    (by decide) (by decide) (by decide) (by decide)


/-! ### Decoder helper lemmas -/

/-- Every registered width is 1 or 2. -/
lemma packetWidth_one_or_two (id w : Nat) (hw : packetWidth id = some w) :
    w = 1 ∨ w = 2 := by
  unfold packetWidth at hw
  split at hw <;> simp_all

/-- Every parser succeeds on a one-byte buffer (a declared 2-byte packet
with one byte left silently reads it via `readUInt8`). -/
lemma applyPacket_ok_one (raw : Raw) (id b : Nat) :
    ∃ raw', applyPacket raw id [b] = .ok raw' := by
  unfold applyPacket
  split <;> exact ⟨_, rfl⟩

/-- Every parser succeeds on a two-byte buffer. -/
lemma applyPacket_ok_two (raw : Raw) (id b0 b1 : Nat) :
    ∃ raw', applyPacket raw id [b0, b1] = .ok raw' := by
  unfold applyPacket
  split <;> exact ⟨_, rfl⟩

/-- A declared 2-byte packet with no data bytes left raises a `TypeError`
(the JS calls the nonexistent `Buffer.readUInt0`). -/
lemma applyPacket_err_empty (raw : Raw) (id : Nat)
    (hw : packetWidth id = some 2) :
    applyPacket raw id [] = .error JsError.typeError := by
  unfold packetWidth at hw
  split at hw <;> first | rfl | simp_all

/-- Any fuel at least the list length computes the same walk. -/
lemma parseLoopF_irrel (n : Nat) : ∀ (m : Nat) (data : List Nat) (raw : Raw),
    data.length ≤ n → data.length ≤ m →
    parseLoopF n data raw = parseLoopF m data raw := by
  induction n with
  | zero =>
    intro m data raw hn _
    have hdata : data = [] := List.eq_nil_of_length_eq_zero (by omega)
    subst hdata
    cases m <;> rfl
  | succ n ih =>
    intro m data raw hn hm
    cases data with
    | nil => cases m <;> rfl
    | cons id rest =>
      cases m with
      | zero => simp at hm
      | succ m' =>
        simp only [parseLoopF]
        rcases hw : packetWidth id with - | w <;> simp only [hw]
        rcases ha : applyPacket raw id ((rest.take w).map (fun b => b % 256)) with e | raw' <;>
          simp only [ha]
        simp only [List.length_cons] at hn hm
        exact ih m' (rest.drop w) raw'
          (by rw [List.length_drop]; omega) (by rw [List.length_drop]; omega)

/-- One step of the decode walk at a registered id. -/
lemma parseLoop_cons (id : Nat) (rest : List Nat) (raw : Raw) (w : Nat)
    (hw : packetWidth id = some w) :
    parseLoop (id :: rest) raw =
      (applyPacket raw id ((rest.take w).map (fun b => b % 256))).bind
        (fun raw' => parseLoop (rest.drop w) raw') := by
  unfold parseLoop
  simp only [List.length_cons, parseLoopF, hw]
  rcases ha : applyPacket raw id ((rest.take w).map (fun b => b % 256)) with e | raw'
  · rfl
  · show parseLoopF rest.length (rest.drop w) raw' = _
    exact parseLoopF_irrel rest.length (rest.drop w).length (rest.drop w) raw'
      (by rw [List.length_drop]; omega) le_rfl

/-- One step of the decode walk at an unregistered id. -/
lemma parseLoop_cons_none (id : Nat) (rest : List Nat) (raw : Raw)
    (hid : packetWidth id = none) :
    parseLoop (id :: rest) raw = .error (.unrecognizedPacketId id) := by
  unfold parseLoop
  simp only [List.length_cons, parseLoopF, hid]

/-- The decode walk consumes an aligned prefix completely and continues at
the remaining bytes from some intermediate raw map. -/
lemma parseLoop_aligned (pre : List Nat) (ha : Aligned pre) :
    ∀ (tail : List Nat) (raw : Raw), ∃ raw',
      parseLoop (pre ++ tail) raw = parseLoop tail raw' := by
  induction ha with
  | nil => exact fun tail raw => ⟨raw, rfl⟩
  | cons id w data rest hw hlen hrest ih =>
    intro tail raw
    have heq : (id :: (data ++ rest)) ++ tail = id :: (data ++ (rest ++ tail)) := by
      simp
    rw [heq]
    have htake : (data ++ (rest ++ tail)).take w = data := List.take_left' hlen
    have hdrop : (data ++ (rest ++ tail)).drop w = rest ++ tail := List.drop_left' hlen
    have hok : ∃ raw1,
        applyPacket raw id (((data ++ (rest ++ tail)).take w).map (fun b => b % 256)) =
          .ok raw1 := by
      rw [htake]
      rcases packetWidth_one_or_two id w hw with h1 | h2
      · obtain ⟨a, rfl⟩ := List.length_eq_one.mp (by omega : data.length = 1)
        exact applyPacket_ok_one raw id (a % 256)
      · obtain ⟨a, b, rfl⟩ := List.length_eq_two.mp (by omega : data.length = 2)
        exact applyPacket_ok_two raw id (a % 256) (b % 256)
    obtain ⟨raw1, hr1⟩ := hok
    obtain ⟨raw', hr'⟩ := ih tail raw1
    exact ⟨raw', by rw [parseLoop_cons id _ raw w hw, hr1, hdrop]; exact hr'⟩

/-! ### Claims C5 and C6 -/

/-- **C5.** For every payload whose decode walk reaches an id absent from
the schema registry (an aligned prefix of complete known packets followed
by the unknown id), the whole-frame decode fails with the
unrecognized-packet-id error, no snapshot is produced, a single `badpacket`
event is emitted, and the engine's stored previous snapshot is left exactly
unchanged. -/
theorem unrecognized_id_rejected (pre rest : List Nat) (id : Nat)
    (st : EngineState) (ha : Aligned pre) (hid : packetWidth id = none) :
    parseSensorData (pre ++ id :: rest) = .error (.unrecognizedPacketId id) ∧
    handleParsedPayload st (pre ++ id :: rest) = (st, [Event.badpacket]) := by
  obtain ⟨raw', hr⟩ := parseLoop_aligned pre ha (id :: rest) {}
  have hp : parseLoop (pre ++ id :: rest) {} = .error (.unrecognizedPacketId id) := by
    rw [hr, parseLoop_cons_none id rest raw' hid]
  have hps : parseSensorData (pre ++ id :: rest) = .error (.unrecognizedPacketId id) := by
    unfold parseSensorData
    rw [hp]
    rfl
  refine ⟨hps, ?_⟩
  unfold handleParsedPayload
  rw [hps]

/-- Witness for `unrecognized_id_rejected`: the payload `[8, 1, 15, 3]`
(a complete wall packet followed by the unregistered id 15). -/
theorem unrecognized_id_witness :
    parseSensorData ([8, 1] ++ 15 :: [3]) =
      .error (.unrecognizedPacketId 15) ∧
    handleParsedPayload ⟨none⟩ ([8, 1] ++ 15 :: [3]) =
      (⟨none⟩, [Event.badpacket]) :=
  unrecognized_id_rejected [8, 1] [3] 15 ⟨none⟩
    (Aligned.cons 8 1 [1] [] rfl rfl Aligned.nil) rfl

/-- **C6.** When no previous snapshot is stored, processing one successfully
decoded snapshot emits zero diff events (no watched-path event, no group
event, no meta `change` event) and stores that snapshot as the previous
snapshot for the next comparison. -/
theorem first_snapshot_suppression (snap : Snapshot) :
    handleSensorEvent ⟨none⟩ snap = ((⟨some snap⟩, []), true) := rfl


/-! ### Claim C7: the bump aggregate and the single meta change event -/

lemma change_not_detectWheelDrop (p c : Snapshot) :
    Event.change ∉ (detectWheelDrop p c).1 := by
  unfold detectWheelDrop emitValueChange compareLeaf
  dsimp only
  repeat' split
  all_goals simp

lemma change_not_detectBump (p c : Snapshot) :
    Event.change ∉ (detectBump p c).1 := by
  unfold detectBump emitValueChange compareLeaf
  dsimp only
  repeat' split
  all_goals simp

lemma change_not_detectCliff (p c : Snapshot) :
    Event.change ∉ (detectCliff p c).1 := by
  unfold detectCliff emitValueChange compareLeaf
  dsimp only
  repeat' split
  all_goals simp

lemma change_not_detectWall (p c : Snapshot) :
    Event.change ∉ (detectWall p c).1 := by
  unfold detectWall emitValueChange compareLeaf
  dsimp only
  repeat' split
  all_goals simp

lemma change_not_detectVirtualWall (p c : Snapshot) :
    Event.change ∉ (detectVirtualWall p c).1 := by
  unfold detectVirtualWall emitValueChange compareLeaf
  dsimp only
  repeat' split
  all_goals simp

lemma change_not_detectIR (p c : Snapshot) :
    Event.change ∉ (detectIR p c).1 := by
  unfold detectIR emitValueChange compareLeaf
  dsimp only
  repeat' split
  all_goals simp

lemma change_not_detectButton (p c : Snapshot) :
    Event.change ∉ (detectButton p c).1 := by
  unfold detectButton emitValueChange compareLeaf
  dsimp only
  repeat' split
  all_goals simp

lemma change_not_detectOvercurrent (p c : Snapshot) :
    Event.change ∉ (detectOvercurrent p c).1 := by
  unfold detectOvercurrent emitValueChange compareLeaf
  dsimp only
  repeat' split
  all_goals simp

lemma change_not_detectMode (p c : Snapshot) (e5 : List Event) (t5 : Bool)
    (h : detectMode p c = .ok (e5, t5)) : Event.change ∉ e5 := by
  unfold detectMode emitValueChange compareLeaf at h
  rcases hp : p.state.mode with - | om <;> rw [hp] at h
  · simp at h
  rcases hc : c.state.mode with - | cm <;> rw [hc] at h
  · simp at h
  dsimp only at h
  split at h <;>
  · injection h with h'
    injection h' with ha hb
    subst ha
    simp


/-- Evaluation of the bump detector on the inactive-to-both-active
transition. -/
lemma detectBump_both (p c : Snapshot)
    (hpl : p.bumpers.left.activated = false)
    (hpr : p.bumpers.right.activated = false)
    (hcl : c.bumpers.left.activated = true)
    (hcr : c.bumpers.right.activated = true) :
    detectBump p c =
      ([Event.bumpRight, Event.bumpLeft, Event.bumpBoth,
        Event.bump true true true], true) := by
  unfold detectBump emitValueChange compareLeaf
  rw [hpl, hpr, hcl, hcr]
  rfl

/-- The mode detector does not throw when both snapshots carry a mode
object. -/
lemma detectMode_ok (p c : Snapshot) (om cm : ModeRaw)
    (hp : p.state.mode = some om) (hc : c.state.mode = some cm) :
    ∃ e5 t5, detectMode p c = .ok (e5, t5) := by
  unfold detectMode
  rw [hp, hc]
  dsimp only
  split <;> exact ⟨_, _, rfl⟩

/-- **C7.** Given a previous snapshot with both bumpers inactive and a
current snapshot with both bumpers active (and mode objects present, so the
pass completes), one diff pass emits `bump:left`, `bump:right`, the grouped
`bump` event whose payload has `both = true`, and exactly one meta `change`
event — not two. -/
theorem bump_aggregate (p c : Snapshot)
    (hpl : p.bumpers.left.activated = false)
    (hpr : p.bumpers.right.activated = false)
    (hcl : c.bumpers.left.activated = true)
    (hcr : c.bumpers.right.activated = true)
    (om cm : ModeRaw)
    (hm : p.state.mode = some om) (hm2 : c.state.mode = some cm) :
    ∃ evts, handleSensorData (some p) c = .ok evts ∧
      Event.bumpLeft ∈ evts ∧ Event.bumpRight ∈ evts ∧
      Event.bump true true true ∈ evts ∧
      evts.count Event.change = 1 := by
  obtain ⟨e5, t5, hmode⟩ := detectMode_ok p c om cm hm hm2
  have hbump := detectBump_both p c hpl hpr hcl hcr
  unfold handleSensorData
  dsimp only
  rw [hbump, hmode]
  dsimp only
  refine ⟨_, rfl, ?_, ?_, ?_, ?_⟩
  · simp
  · simp
  · simp
  · have h5 := change_not_detectMode p c e5 t5 hmode
    simp [List.count_append, List.count_eq_zero.mpr h5,
      List.count_eq_zero.mpr (change_not_detectButton p c),
      List.count_eq_zero.mpr (change_not_detectCliff p c),
      List.count_eq_zero.mpr (change_not_detectIR p c),
      List.count_eq_zero.mpr (change_not_detectOvercurrent p c),
      List.count_eq_zero.mpr (change_not_detectVirtualWall p c),
      List.count_eq_zero.mpr (change_not_detectWall p c),
      List.count_eq_zero.mpr (change_not_detectWheelDrop p c)]

/-- Witness for `bump_aggregate` at the concrete example snapshots. -/
theorem bump_aggregate_witness :
    ∃ evts, handleSensorData (some exampleSnapshot) exampleSnapshotBumped = .ok evts ∧
      Event.bumpLeft ∈ evts ∧ Event.bumpRight ∈ evts ∧
      Event.bump true true true ∈ evts ∧
      evts.count Event.change = 1 :=
  bump_aggregate exampleSnapshot exampleSnapshotBumped rfl rfl rfl rfl
    { off := false, passive := false, safe := true, full := false }
    { off := false, passive := false, safe := true, full := false }
    rfl rfl


/-! ### Claim C8: payloads that end mid-packet -/

/-- **C8 counterexample.** The payload
`[7, 0, 14, 0, 17, 255, 18, 0, 21, 0, 24, 0, 32, 0, 22, 5]` ends mid-packet:
the final id 22 (voltage) declares 2 data bytes but only one remains.  The
decode does not fail with any truncation error — it returns a snapshot built
from the short read, whose voltage was decoded from the single remaining
byte. -/
theorem truncated_counterexample :
    (parseSensorData [7, 0, 14, 0, 17, 255, 18, 0, 21, 0, 24, 0, 32, 0, 22, 5]).map
        (fun snap => snap.battery.voltage) = .ok (some { millivolts := 5 }) := by
  rfl

/-- **C8 (amended).** A payload that ends mid-packet is not detected as
truncated: after an aligned prefix of complete packets, a declared 2-byte
packet with one remaining byte is silently decoded from the short 1-byte
read and the walk succeeds; only when zero bytes remain does the walk fail,
and then with a type error (the JS calls a nonexistent `Buffer` read
method), not a dedicated truncation error. -/
theorem truncated_short_read (pre : List Nat) (id b : Nat)
    (ha : Aligned pre) (hw : packetWidth id = some 2) :
    (∃ raw, parseLoop (pre ++ [id, b]) {} = .ok raw) ∧
    parseLoop (pre ++ [id]) {} = .error JsError.typeError := by
  constructor
  · obtain ⟨raw', hr⟩ := parseLoop_aligned pre ha [id, b] {}
    rw [hr, parseLoop_cons id [b] raw' 2 hw]
    obtain ⟨raw1, h1⟩ := applyPacket_ok_one raw' id (b % 256)
    have htb : (([b] : List Nat).take 2).map (fun x => x % 256) = [b % 256] := rfl
    rw [htb, h1]
    exact ⟨raw1, rfl⟩
  · obtain ⟨raw', hr⟩ := parseLoop_aligned pre ha [id] {}
    rw [hr, parseLoop_cons id [] raw' 2 hw]
    have hte : (([] : List Nat).take 2).map (fun x => x % 256) = [] := rfl
    rw [hte, applyPacket_err_empty raw' id hw]
    rfl

/-- Witness for `truncated_short_read`: id 22 (voltage) preceded by a
complete wall packet. -/
theorem truncated_short_read_witness :
    (∃ raw, parseLoop ([8, 1] ++ [22, 5]) {} = .ok raw) ∧
    parseLoop ([8, 1] ++ [22]) {} = .error JsError.typeError :=
  truncated_short_read [8, 1] 22 5
    (Aligned.cons 8 1 [1] [] rfl rfl Aligned.nil) rfl

end IRobot
